import Mathlib

/-!
Verification development for the MCP weather server
(`samples/19-mcp-weather-server/server.py`): a shallow embedding of the
request dispatcher, the tool/prompt catalog, the deterministic fake-data
generators and the line transport loop, followed by theorems about them.

JSON values are modelled by the inductive `Json` below; numeric JSON
values are modelled as integers (every claim under study involves only
integer payloads).  Python dictionaries decoded from JSON lines are
`Json.obj` with a first-match lookup (a decoded dict holds each key once).
-/

inductive Json where
  | null : Json
  | bool (b : Bool) : Json
  | num (n : Int) : Json
  | str (s : String) : Json
  | arr (elems : List Json) : Json
  | obj (fields : List (String × Json)) : Json

/-- First-match lookup of a key among the fields of a decoded JSON object. -/
def lookupField (fields : List (String × Json)) (key : String) : Option Json :=
  match fields with
  | [] => none
  | (k, v) :: rest => if k = key then some v else lookupField rest key

/-- Python's `d.get(key, default)`: succeeds only on a dict; on any other
value the attribute access raises `AttributeError` (modelled as `.error`). -/
def pyDictGet (j : Json) (key : String) (dflt : Json) : Except String Json :=
  match j with
  | .obj fields => .ok ((lookupField fields key).getD dflt)
  | _ => .error "AttributeError: object has no attribute get"

mutual

/-- Python's `repr` of a decoded JSON value (used inside containers and for
non-string values interpolated into f-strings). -/
def pyRepr : Json → String
  | .null => "None"
  | .bool true => "True"
  | .bool false => "False"
  | .num n => toString n
  | .str s => "\x27" ++ s ++ "\x27"
  | .arr elems => "[" ++ pyReprList elems ++ "]"
  | .obj fields => "\x7b" ++ pyReprFields fields ++ "\x7d"

def pyReprList : List Json → String
  | [] => ""
  | [x] => pyRepr x
  | x :: rest => pyRepr x ++ ", " ++ pyReprList rest

def pyReprFields : List (String × Json) → String
  | [] => ""
  | [(k, v)] => "\x27" ++ k ++ "\x27: " ++ pyRepr v
  | (k, v) :: rest => "\x27" ++ k ++ "\x27: " ++ pyRepr v ++ ", " ++ pyReprFields rest

end

/-- Python's `str` of a decoded JSON value, as used by f-string interpolation
(a string interpolates as itself, everything else as its repr). -/
def pyStr : Json → String
  | .str s => s
  | j => pyRepr j

/-- A Gregorian calendar date, standing for Python's `datetime.date`. -/
structure Date where
  year : Nat
  month : Nat
  day : Nat
deriving DecidableEq, Repr

def isLeapYear (y : Nat) : Bool :=
  (y % 4 = 0 && y % 100 != 0) || y % 400 = 0

def daysInMonth (y m : Nat) : Nat :=
  if m = 2 then (if isLeapYear y then 29 else 28)
  else if m = 4 ∨ m = 6 ∨ m = 9 ∨ m = 11 then 30
  else 31

/-- Python's `date.timetuple().tm_yday`: the 1-based ordinal of the day in
its year. -/
def dayOfYear (d : Date) : Nat :=
  (List.range (d.month - 1)).foldl (fun acc m => acc + daysInMonth d.year (m + 1)) 0 + d.day

def nextDay (d : Date) : Date :=
  if d.day < daysInMonth d.year d.month then ⟨d.year, d.month, d.day + 1⟩
  else if d.month < 12 then ⟨d.year, d.month + 1, 1⟩
  else ⟨d.year + 1, 1, 1⟩

/-- Python's `date + timedelta(days = n)`. -/
def addDays (d : Date) : Nat → Date
  | 0 => d
  | n + 1 => nextDay (addDays d n)

def pad2 (n : Nat) : String :=
  if n < 10 then "0" ++ toString n else toString n

def pad4 (n : Nat) : String :=
  if n < 10 then "000" ++ toString n
  else if n < 100 then "00" ++ toString n
  else if n < 1000 then "0" ++ toString n
  else toString n

/-- Python's `date.strftime("%Y-%m-%d")`. -/
def formatDate (d : Date) : String :=
  pad4 d.year ++ "-" ++ pad2 d.month ++ "-" ++ pad2 d.day

/-!
The pseudo-random generator.  The source uses `random.Random(seed)` and
draws with `rng.randint(a, b)`; all that the program (and every claim)
relies on is that the generator is a deterministic function of its seed,
that draws happen in a fixed order, and that `randint(a, b)` yields an
integer in `[a, b]`.  The Mersenne Twister itself is modelled by a 64-bit
linear congruential generator with the same interface.
-/

structure Rng where
  state : Nat
deriving DecidableEq, Repr

def U64 : Nat := 18446744073709551616

def lcgNext (s : Nat) : Nat :=
  (6364136223846793005 * s + 1442695040888963407) % U64

/-- `random.Random(seed)`: seeding is a pure function of the integer seed. -/
def mkRng (seed : Int) : Rng :=
  ⟨(seed % (U64 : Int)).toNat⟩

/-- `rng.randint(lo, hi)`: a draw in `[lo, hi]` together with the advanced
generator state. -/
def randint (r : Rng) (lo hi : Int) : Int × Rng :=
  let s := lcgNext r.state
  (lo + (((s / 65536) % (hi + 1 - lo).toNat : Nat) : Int), ⟨s⟩)

theorem randint_mem (r : Rng) (lo hi : Int) (h : lo ≤ hi) :
    lo ≤ (randint r lo hi).1 ∧ (randint r lo hi).1 ≤ hi := by
  unfold randint
  have hpos : 0 < (hi + 1 - lo).toNat := by omega
  have hlt := Nat.mod_lt ((lcgNext r.state) / 65536) hpos
  constructor
  · simp only
    omega
  · simp only
    omega

/-!
Python's built-in `hash` on a decoded JSON value.  CPython's string hash is
salted per process (`PYTHONHASHSEED`); the salt is the explicit `key`
argument here, and the hash itself is modelled by a 64-bit multiplicative
string hash mixed with that salt.  Hashing an int yields the int itself,
a bool its int value, `None` a fixed constant; lists and dicts are
unhashable (`TypeError`).
-/

def pyHash (key : Nat) (s : String) : Nat :=
  s.data.foldl (fun acc c => (acc * 1000003 + c.toNat) % U64) (key % U64)

def pyHashJson (key : Nat) : Json → Except String Int
  | .str s => .ok (pyHash key s)
  | .num n => .ok n
  | .bool b => .ok (if b then 1 else 0)
  | .null => .ok 4223380517
  | .arr _ => .error "TypeError: unhashable type: list"
  | .obj _ => .error "TypeError: unhashable type: dict"

/-- The fixed condition list of `get_current_weather` / `get_weather_forecast`. -/
def conditions : List String :=
  ["sunny", "cloudy", "partly cloudy", "rainy", "foggy", "snowy", "thunderstorms", "clear"]

/-- The four draws every generator makes, in the source's fixed order:
condition index, base temperature (15-95), humidity (30-90), wind speed
(5-25); returns them with the generator state after the fourth draw. -/
def weatherDraws (seed : Int) : String × Int × Int × Int × Rng :=
  let r0 := mkRng seed
  let (ci, r1) := randint r0 0 ((conditions.length : Int) - 1)
  let condition := conditions.getD ci.toNat ""
  let (temperature, r2) := randint r1 15 95
  let (humidity, r3) := randint r2 30 90
  let (wind_speed, r4) := randint r3 5 25
  (condition, temperature, humidity, wind_speed, r4)

/-- The process environment the source reads implicitly: the per-process
string-hash salt and the wall clock (`datetime.now()`), made explicit. -/
structure Env where
  hashKey : Nat
  today : Date
  localIso : String
  localFormatted : String
  utcIso : String
  utcFormatted : String
  localTimestamp : Int
  utcTimestamp : Int

structure WeatherSample where
  location : Json
  temperature : Int
  condition : String
  humidity : Int
  wind_speed : Int

/-- `MCPServer.get_current_weather`: seed from `hash(location) + tm_yday`,
then the four fixed-order draws. -/
def get_current_weather (env : Env) (location : Json) : Except String WeatherSample :=
  match pyHashJson env.hashKey location with
  | .error e => .error e
  | .ok h =>
    let seed := h + (dayOfYear env.today : Int)
    let (condition, temperature, humidity, wind_speed, _) := weatherDraws seed
    .ok ⟨location, temperature, condition, humidity, wind_speed⟩

structure ForecastDay where
  date : String
  temperature_high : Int
  temperature_low : Int
  condition : String
  humidity : Int
  wind_speed : Int

/-- The per-day generation of `get_weather_forecast` up to the seasonal
adjustment: condition, seasonally adjusted base temperature, humidity, wind
speed, and the generator state (winter consumes one extra draw). -/
def genDayCore (seed : Int) (target : Date) : String × Int × Int × Int × Rng :=
  let (condition, temperature, humidity, wind_speed, r) := weatherDraws seed
  if target.month ∈ [12, 1, 2] then
    let temperature := max (temperature - 25) 10
    let (roll, r2) := randint r 0 2
    ((if roll = 0 then "snowy" else condition), temperature, humidity, wind_speed, r2)
  else if target.month ∈ [6, 7, 8] then
    (condition, min (temperature + 15) 100, humidity, wind_speed, r)
  else
    (condition, temperature, humidity, wind_speed, r)

/-- The raw base-temperature draw (second draw) for a seed, before any
seasonal adjustment. -/
def drawnTemp (seed : Int) : Int := (weatherDraws seed).2.1

/-- The seasonally adjusted base temperature of a forecast day. -/
def baseTempOf (seed : Int) (target : Date) : Int := (genDayCore seed target).2.1

/-- The `temp_variation` draw (uniform 5-15) of a forecast day. -/
def spreadOf (seed : Int) (target : Date) : Int :=
  (randint (genDayCore seed target).2.2.2.2 5 15).1

/-- One forecast entry: the seasonally adjusted base split into
`high = base + spread // 2`, `low = base - spread // 2` (the spread is
positive, so Lean's `Int` division agrees with Python's floor division). -/
def genDay (seed : Int) (target : Date) : ForecastDay :=
  let (condition, temperature, humidity, wind_speed, r) := genDayCore seed target
  let (temp_variation, _) := randint r 5 15
  ⟨formatDate target, temperature + temp_variation / 2, temperature - temp_variation / 2,
    condition, humidity, wind_speed⟩

/-- Python's `days = max(1, min(7, days))` on a decoded JSON value: ints and
bools (int subclass) are clamped, anything else raises `TypeError`. -/
def pyClampDays (days : Json) : Except String Int :=
  match days with
  | .num n => .ok (max 1 (min 7 n))
  | .bool b => .ok (max 1 (min 7 (if b then (1 : Int) else 0)))
  | _ => .error "TypeError: unsupported operand for min"

structure ForecastResult where
  location : Json
  forecast : List ForecastDay

/-- The forecast loop body: day `i` is generated from seed
`hash(location) + tm_yday(today + i)`. -/
def forecastDays (hashVal : Int) (today : Date) (n : Nat) : List ForecastDay :=
  (List.range n).map (fun i =>
    let target := addDays today i
    genDay (hashVal + (dayOfYear target : Int)) target)

/-- `MCPServer.get_weather_forecast`: clamp `days` to [1,7], then generate
one entry per day. -/
def get_weather_forecast (env : Env) (location days : Json) : Except String ForecastResult :=
  match pyClampDays days with
  | .error e => .error e
  | .ok n =>
    match pyHashJson env.hashKey location with
    | .error e => .error e
    | .ok h => .ok ⟨location, forecastDays h env.today n.toNat⟩

/-- `MCPServer.get_current_datetime`: `"utc"` (case-insensitive) selects the
UTC clock, anything else the local clock; a non-string raises
(`.lower()` on a non-string). -/
def get_current_datetime (env : Env) (timezone_str : Json) : Except String Json :=
  match timezone_str with
  | .str s =>
    if s.toLower = "utc" then
      .ok (.obj [("datetime", .str env.utcIso), ("formatted", .str env.utcFormatted),
                 ("timezone", .str "UTC"), ("timestamp", .num env.utcTimestamp)])
    else
      .ok (.obj [("datetime", .str env.localIso), ("formatted", .str env.localFormatted),
                 ("timezone", .str "Local"), ("timestamp", .num env.localTimestamp)])
  | _ => .error "AttributeError: object has no attribute lower"

/-- The weather dict returned by `get_current_weather`, in the source's
field order. -/
def WeatherSample.toJson (w : WeatherSample) : Json :=
  .obj [("location", w.location), ("temperature", .num w.temperature),
        ("condition", .str w.condition), ("humidity", .num w.humidity),
        ("wind_speed", .num w.wind_speed), ("unit", .str "Fahrenheit")]

def ForecastDay.toJson (d : ForecastDay) : Json :=
  .obj [("date", .str d.date), ("temperature_high", .num d.temperature_high),
        ("temperature_low", .num d.temperature_low), ("condition", .str d.condition),
        ("humidity", .num d.humidity), ("wind_speed", .num d.wind_speed)]

def ForecastResult.toJson (f : ForecastResult) : Json :=
  .obj [("location", f.location), ("forecast", .arr (f.forecast.map ForecastDay.toJson)),
        ("unit", .str "Fahrenheit")]

/-!
The static catalog (`self.prompts` and `self.tools` of `MCPServer.__init__`),
as decoded JSON in declaration order.
-/

def promptsCatalog : List (String × Json) :=
  [("time_in_location", .obj
      [("name", .str "time_in_location"),
       ("description", .str "Get the current time in a specific city or timezone. Use this when a user asks what time it is in a particular location."),
       ("arguments", .arr
         [.obj [("name", .str "location"),
                ("description", .str "The city or region the user is asking about, e.g. 'Tokyo', 'London', 'New York'"),
                ("required", .bool true)]])]),
   ("daily_briefing", .obj
      [("name", .str "daily_briefing"),
       ("description", .str "Get a morning briefing with current time, weather, and forecast for a location."),
       ("arguments", .arr
         [.obj [("name", .str "location"),
                ("description", .str "The city to get the briefing for, e.g. 'Seattle, WA'"),
                ("required", .bool true)]])]),
   ("weather_comparison", .obj
      [("name", .str "weather_comparison"),
       ("description", .str "Compare current weather between two cities."),
       ("arguments", .arr
         [.obj [("name", .str "location1"),
                ("description", .str "First city, e.g. 'Seattle, WA'"),
                ("required", .bool true)],
          .obj [("name", .str "location2"),
                ("description", .str "Second city, e.g. 'Miami, FL'"),
                ("required", .bool true)]])])]

def toolsCatalog : List (String × Json) :=
  [("get_current_weather", .obj
      [("name", .str "get_current_weather"),
       ("description", .str "Get the current weather for a specific location"),
       ("inputSchema", .obj
         [("type", .str "object"),
          ("properties", .obj
            [("location", .obj
               [("type", .str "string"),
                ("description", .str "The city and state, e.g. San Francisco, CA")])]),
          ("required", .arr [.str "location"])])]),
   ("get_weather_forecast", .obj
      [("name", .str "get_weather_forecast"),
       ("description", .str "Get the weather forecast for a specific location"),
       ("inputSchema", .obj
         [("type", .str "object"),
          ("properties", .obj
            [("location", .obj
               [("type", .str "string"),
                ("description", .str "The city and state, e.g. San Francisco, CA")]),
             ("days", .obj
               [("type", .str "integer"),
                ("description", .str "Number of days to forecast (1-7)"),
                ("minimum", .num 1),
                ("maximum", .num 7)])]),
          ("required", .arr [.str "location"])])]),
   ("get_current_datetime", .obj
      [("name", .str "get_current_datetime"),
       ("description", .str "Get the current date and time"),
       ("inputSchema", .obj
         [("type", .str "object"),
          ("properties", .obj
            [("timezone", .obj
               [("type", .str "string"),
                ("description", .str "Timezone (e.g., 'UTC', 'local')")])])])])]

def promptNames : List String := promptsCatalog.map (fun kv => kv.1)

/-- `list(self.tools.values())`. -/
def toolsListJson : Json := .arr (toolsCatalog.map (fun kv => kv.2))

/-- `list(self.prompts.values())`. -/
def promptsListJson : Json := .arr (promptsCatalog.map (fun kv => kv.2))

/-- Whether a tool's `inputSchema` lists an argument in its `required` array. -/
def schemaRequires (tool arg : String) : Bool :=
  match lookupField toolsCatalog tool with
  | some (.obj fields) =>
    match lookupField fields "inputSchema" with
    | some (.obj sfields) =>
      match lookupField sfields "required" with
      | some (.arr req) => req.any (fun j => match j with | .str s => s = arg | _ => false)
      | _ => false
    | _ => false
  | _ => false

/-!
The prompt template engine (`MCPServer._get_prompt_messages`).
-/

def userMsg (text : String) : Json :=
  .obj [("role", .str "user"),
        ("content", .obj [("type", .str "text"), ("text", .str text)])]

def timeInLocationText (location : String) : String :=
  "What time is it right now in " ++ location ++ "?\n\n" ++
  "IMPORTANT INSTRUCTIONS FOR ANSWERING:\n" ++
  "1. First, call the get_current_datetime tool with timezone set to 'UTC' " ++
  "to get the current time in ISO 8601 / UTC format.\n" ++
  "2. Then convert from UTC to the correct local timezone for the requested location. " ++
  "Apply the appropriate UTC offset (e.g., Tokyo is UTC+9, London is UTC+0/+1, " ++
  "New York is UTC-5/-4, etc.). Account for daylight saving time if applicable.\n" ++
  "3. Present ONLY the final local time in a friendly, human-readable format like " ++
  "'It's 10:28 PM on Monday, February 24th in New York (Eastern Standard Time).' " ++
  "Do NOT show the raw UTC time, ISO 8601 strings, or the conversion math. " ++
  "Keep it short and conversational — just the answer."

def dailyBriefingText (location : String) : String :=
  "Give me a morning briefing for " ++ location ++ ". " ++
  "Please get the current date/time, current weather, " ++
  "and a 3-day forecast, then present it as a concise morning briefing."

def weatherComparisonText (loc1 loc2 : String) : String :=
  "Compare the current weather in " ++ loc1 ++ " and " ++ loc2 ++ ". " ++
  "Get the weather for both locations and present a side-by-side comparison " ++
  "including temperature, conditions, humidity, and wind speed."

/-- `MCPServer._get_prompt_messages`: renders the one-message template of a
prompt, substituting each missing argument by its placeholder default. -/
def getPromptMessages (prompt_name : String) (arguments : Json) : Except String (List Json) :=
  if prompt_name = "time_in_location" then
    match pyDictGet arguments "location" (.str "the requested location") with
    | .error e => .error e
    | .ok location => .ok [userMsg (timeInLocationText (pyStr location))]
  else if prompt_name = "daily_briefing" then
    match pyDictGet arguments "location" (.str "the requested location") with
    | .error e => .error e
    | .ok location => .ok [userMsg (dailyBriefingText (pyStr location))]
  else if prompt_name = "weather_comparison" then
    match pyDictGet arguments "location1" (.str "city 1") with
    | .error e => .error e
    | .ok loc1 =>
      match pyDictGet arguments "location2" (.str "city 2") with
      | .error e => .error e
      | .ok loc2 => .ok [userMsg (weatherComparisonText (pyStr loc1) (pyStr loc2))]
  else .error ("No message template for prompt: " ++ prompt_name)

/-- `prompt_name not in self.prompts`, on a decoded JSON value: a string is
looked up among the keys, unhashable values raise, other scalars are simply
absent. -/
def promptMember (j : Json) : Except String (Option String) :=
  match j with
  | .str n => .ok (if n ∈ promptNames then some n else none)
  | .arr _ => .error "TypeError: unhashable type: list"
  | .obj _ => .error "TypeError: unhashable type: dict"
  | _ => .ok none

/-- `self.prompts[prompt_name]["description"]`. -/
def promptDescriptionOf (n : String) : Json :=
  match lookupField promptsCatalog n with
  | some (.obj fields) => (lookupField fields "description").getD .null
  | _ => .null

/-!
`json.dumps`: the compact form used by the transport loop (default
separators) and the `indent=2` form used for tool results.
-/

def hex4 (n : Nat) : String :=
  let dig := fun (d : Nat) => "0123456789abcdef".toList.getD d '0'
  String.mk [dig (n / 4096 % 16), dig (n / 256 % 16), dig (n / 16 % 16), dig (n % 16)]

def escapeJsonChar (c : Char) : String :=
  if c = '"' then "\\\""
  else if c = '\\' then "\\\\"
  else if c = '\n' then "\\n"
  else if c = '\t' then "\\t"
  else if c = '\r' then "\\r"
  else if c.toNat < 32 ∨ 127 < c.toNat then "\\u" ++ hex4 c.toNat
  else String.singleton c

def escapeJson (s : String) : String :=
  s.data.foldl (fun acc c => acc ++ escapeJsonChar c) ""

mutual

def dumps : Json → String
  | .null => "null"
  | .bool true => "true"
  | .bool false => "false"
  | .num n => toString n
  | .str s => "\"" ++ escapeJson s ++ "\""
  | .arr elems => "[" ++ dumpsList elems ++ "]"
  | .obj fields => "\x7b" ++ dumpsFields fields ++ "\x7d"

def dumpsList : List Json → String
  | [] => ""
  | [x] => dumps x
  | x :: rest => dumps x ++ ", " ++ dumpsList rest

def dumpsFields : List (String × Json) → String
  | [] => ""
  | [(k, v)] => "\"" ++ escapeJson k ++ "\": " ++ dumps v
  | (k, v) :: rest => "\"" ++ escapeJson k ++ "\": " ++ dumps v ++ ", " ++ dumpsFields rest

end

def spaces (n : Nat) : String := String.mk (List.replicate n ' ')

mutual

def dumpsIndent (ind : Nat) : Json → String
  | .arr [] => "[]"
  | .obj [] => "\x7b\x7d"
  | .arr elems => "[\n" ++ dumpsIndentList (ind + 2) elems ++ "\n" ++ spaces ind ++ "]"
  | .obj fields => "\x7b\n" ++ dumpsIndentFields (ind + 2) fields ++ "\n" ++ spaces ind ++ "\x7d"
  | j => dumps j

def dumpsIndentList (ind : Nat) : List Json → String
  | [] => ""
  | [x] => spaces ind ++ dumpsIndent ind x
  | x :: rest => spaces ind ++ dumpsIndent ind x ++ ",\n" ++ dumpsIndentList ind rest

def dumpsIndentFields (ind : Nat) : List (String × Json) → String
  | [] => ""
  | [(k, v)] => spaces ind ++ "\"" ++ escapeJson k ++ "\": " ++ dumpsIndent ind v
  | (k, v) :: rest =>
    spaces ind ++ "\"" ++ escapeJson k ++ "\": " ++ dumpsIndent ind v ++ ",\n" ++
      dumpsIndentFields ind rest

end

/-!
The request dispatcher (`MCPServer.handle_request`) and the transport loop
body (`main`).
-/

def mkResult (request_id result : Json) : Json :=
  .obj [("jsonrpc", .str "2.0"), ("id", request_id), ("result", result)]

def errResponse (request_id : Json) (code : Int) (message : String) : Json :=
  .obj [("jsonrpc", .str "2.0"), ("id", request_id),
        ("error", .obj [("code", .num code), ("message", .str message)])]

def initializeResult : Json :=
  .obj [("protocolVersion", .str "2024-11-05"),
        ("capabilities", .obj [("tools", .obj []), ("prompts", .obj [])]),
        ("serverInfo", .obj [("name", .str "weather-server"), ("version", .str "1.0.0")])]

/-- The `tools/call` result envelope. -/
def toolContent (resultText : String) : Json :=
  .obj [("content", .arr [.obj [("type", .str "text"), ("text", .str resultText)]])]

/-- The `tools/call` tool selection chain: dispatches on `params.name` and
produces the result content, or raises (`Unknown tool`, or any failure of
the tool itself). -/
def callTool (env : Env) (tool_name arguments : Json) : Except String Json :=
  match tool_name with
  | .str "get_current_weather" =>
    (match pyDictGet arguments "location" (.str "") with
     | .error e => .error e
     | .ok location =>
       match get_current_weather env location with
       | .error e => .error e
       | .ok w => .ok (toolContent (dumpsIndent 0 w.toJson)))
  | .str "get_weather_forecast" =>
    (match pyDictGet arguments "location" (.str "") with
     | .error e => .error e
     | .ok location =>
       match pyDictGet arguments "days" (.num 3) with
       | .error e => .error e
       | .ok days =>
         match get_weather_forecast env location days with
         | .error e => .error e
         | .ok f => .ok (toolContent (dumpsIndent 0 f.toJson)))
  | .str "get_current_datetime" =>
    (match pyDictGet arguments "timezone" (.str "local") with
     | .error e => .error e
     | .ok tz =>
       match get_current_datetime env tz with
       | .error e => .error e
       | .ok r => .ok (toolContent (dumpsIndent 0 r)))
  | _ => .error ("Unknown tool: " ++ pyStr tool_name)

/-- The body of `handle_request`'s `try` block: the method `elif` chain.
Returns `none` exactly where the source returns `None` (the
`notifications/initialized` branch); `.error` models a raised exception. -/
def dispatch (env : Env) (method params request_id : Json) : Except String (Option Json) :=
  match method with
  | .str "tools/list" =>
    .ok (some (mkResult request_id (.obj [("tools", toolsListJson)])))
  | .str "tools/call" =>
    (match pyDictGet params "name" .null with
     | .error e => .error e
     | .ok tool_name =>
       match pyDictGet params "arguments" (.obj []) with
       | .error e => .error e
       | .ok arguments =>
         match callTool env tool_name arguments with
         | .error e => .error e
         | .ok content => .ok (some (mkResult request_id content)))
  | .str "prompts/list" =>
    .ok (some (mkResult request_id (.obj [("prompts", promptsListJson)])))
  | .str "prompts/get" =>
    (match pyDictGet params "name" .null with
     | .error e => .error e
     | .ok prompt_name =>
       match pyDictGet params "arguments" (.obj []) with
       | .error e => .error e
       | .ok arguments =>
         match promptMember prompt_name with
         | .error e => .error e
         | .ok none => .error ("Unknown prompt: " ++ pyStr prompt_name)
         | .ok (some n) =>
           match getPromptMessages n arguments with
           | .error e => .error e
           | .ok messages =>
             .ok (some (mkResult request_id
               (.obj [("description", promptDescriptionOf n), ("messages", .arr messages)]))))
  | .str "initialize" =>
    .ok (some (mkResult request_id initializeResult))
  | .str "notifications/initialized" => .ok none
  | _ => .error ("Unknown method: " ++ pyStr method)

/-- `MCPServer.handle_request`: field extraction happens before the `try`
(a non-dict request raises out of the function); every exception raised
inside the `try` becomes an error response with code `-1`. -/
def handle_request (env : Env) (request : Json) : Except String (Option Json) :=
  match request with
  | .obj fields =>
    let method := (lookupField fields "method").getD .null
    let params := (lookupField fields "params").getD (.obj [])
    let request_id := (lookupField fields "id").getD .null
    .ok (match dispatch env method params request_id with
         | .ok r => r
         | .error e => some (errResponse request_id (-1) e))
  | _ => .error "AttributeError: object has no attribute get"

/-- One iteration of `main`'s transport loop on a decoded line: no output
for a decode failure or a `None` response; if `handle_request` itself
raises, an `-32603` reply is attempted, which itself needs the request to
be a dict to recover an `id` (otherwise the inner `except` swallows it). -/
def processLine (env : Env) (decoded : Except String Json) : Option String :=
  match decoded with
  | .error _ => none
  | .ok request =>
    match handle_request env request with
    | .ok none => none
    | .ok (some response) => some (dumps response)
    | .error e =>
      match request with
      | .obj fields =>
        some (dumps (errResponse ((lookupField fields "id").getD .null) (-32603)
          ("Internal error: " ++ e)))
      | _ => none

/-- The numeric `error.code` of a response, when it is an error response. -/
def errorCodeOf (j : Json) : Option Int :=
  match j with
  | .obj fields =>
    match lookupField fields "error" with
    | some (.obj efields) =>
      match lookupField efields "code" with
      | some (.num c) => some c
      | _ => none
    | _ => none
  | _ => none

/-- A concrete process environment for closed evaluations: hash salt 0,
clock 2024-10-12. -/
def defaultEnv : Env :=
  ⟨0, ⟨2024, 10, 12⟩, "2024-10-12T09:00:00", "2024-10-12 09:00:00",
   "2024-10-12T16:00:00+00:00", "2024-10-12 16:00:00", 1728723600, 1728723600⟩

/-- A second process environment: same clock as `defaultEnv`, different
per-process string-hash salt. -/
def envSalt1 : Env :=
  ⟨1, ⟨2024, 10, 12⟩, "2024-10-12T09:00:00", "2024-10-12 09:00:00",
   "2024-10-12T16:00:00+00:00", "2024-10-12 16:00:00", 1728723600, 1728723600⟩

theorem genDay_high (seed : Int) (target : Date) :
    (genDay seed target).temperature_high = baseTempOf seed target + spreadOf seed target / 2 := by
  rcases hgc : genDayCore seed target with ⟨c, t, hu, w, r⟩
  simp [genDay, baseTempOf, spreadOf, hgc]

theorem genDay_low (seed : Int) (target : Date) :
    (genDay seed target).temperature_low = baseTempOf seed target - spreadOf seed target / 2 := by
  rcases hgc : genDayCore seed target with ⟨c, t, hu, w, r⟩
  simp [genDay, baseTempOf, spreadOf, hgc]

theorem spread_bounds (seed : Int) (target : Date) :
    5 ≤ spreadOf seed target ∧ spreadOf seed target ≤ 15 :=
  randint_mem _ 5 15 (by norm_num)

theorem baseTemp_winter (seed : Int) (target : Date)
    (h : target.month ∈ ([12, 1, 2] : List Nat)) :
    baseTempOf seed target = max (drawnTemp seed - 25) 10 := by
  rcases hw : weatherDraws seed with ⟨c, t, hu, w, r⟩
  simp [baseTempOf, genDayCore, hw, h, drawnTemp]

theorem genDayCore_other (seed : Int) (target : Date)
    (h1 : target.month ∉ ([12, 1, 2] : List Nat))
    (h2 : target.month ∉ ([6, 7, 8] : List Nat)) :
    genDayCore seed target = weatherDraws seed := by
  rcases hw : weatherDraws seed with ⟨c, t, hu, w, r⟩
  simp [genDayCore, hw, h1, h2]

/-- C7: for every generated forecast day, high and low are symmetric around
the seasonally adjusted base temperature, offset by (integer) half of a
spread lying in 5..15. -/
theorem c7_spread_symmetry (seed : Int) (target : Date) :
    (genDay seed target).temperature_high - baseTempOf seed target = spreadOf seed target / 2 ∧
    baseTempOf seed target - (genDay seed target).temperature_low = spreadOf seed target / 2 ∧
    5 ≤ spreadOf seed target ∧ spreadOf seed target ≤ 15 := by
  have hh := genDay_high seed target
  have hl := genDay_low seed target
  have hb := spread_bounds seed target
  exact ⟨by omega, by omega, hb.1, hb.2⟩

/-- C6: a December/January/February forecast day has high at or above low,
and its base temperature (before the spread split) is `max(drawn - 25, 10)`,
floored at 10 degrees: high and low sum to twice that base. -/
theorem c6_winter_floor (seed : Int) (target : Date)
    (h : target.month ∈ ([12, 1, 2] : List Nat)) :
    (genDay seed target).temperature_low ≤ (genDay seed target).temperature_high ∧
    (genDay seed target).temperature_high + (genDay seed target).temperature_low =
      2 * max (drawnTemp seed - 25) 10 ∧
    10 ≤ baseTempOf seed target := by
  have hh := genDay_high seed target
  have hl := genDay_low seed target
  have hb := spread_bounds seed target
  have hw := baseTemp_winter seed target h
  refine ⟨by omega, by omega, by omega⟩

/-- Witness for C6 at a concrete January date and seed. -/
theorem c6_winter_floor_witness :
    (⟨2024, 1, 15⟩ : Date).month ∈ ([12, 1, 2] : List Nat) ∧
    ((genDay 42 ⟨2024, 1, 15⟩).temperature_low ≤ (genDay 42 ⟨2024, 1, 15⟩).temperature_high ∧
     (genDay 42 ⟨2024, 1, 15⟩).temperature_high + (genDay 42 ⟨2024, 1, 15⟩).temperature_low =
       2 * max (drawnTemp 42 - 25) 10 ∧
     10 ≤ baseTempOf 42 ⟨2024, 1, 15⟩) :=
  ⟨by decide, c6_winter_floor 42 ⟨2024, 1, 15⟩ (by decide)⟩

/-- C3: for every integer `days` the forecast list has exactly
`clamp(days, 1, 7) = max(1, min(7, days))` entries, and out-of-range values
are clamped rather than rejected (the call succeeds). -/
theorem c3_forecast_length (env : Env) (s : String) (d : Int) :
    ∃ f, get_weather_forecast env (.str s) (.num d) = .ok f ∧
      (f.forecast.length : Int) = max 1 (min 7 d) := by
  refine ⟨_, rfl, ?_⟩
  simp [forecastDays]

set_option maxRecDepth 8000 in
/-- C1 (code bug): with the clock held fixed, the generated weather for one
location differs between two processes whose string-hash salts differ, so
the output is not stable across process restarts. -/
theorem c1_restart_divergence :
    defaultEnv.today = envSalt1.today ∧ defaultEnv.hashKey ≠ envSalt1.hashKey ∧
    ∃ w0 w1, get_current_weather defaultEnv (.str "Seattle, WA") = .ok w0 ∧
      get_current_weather envSalt1 (.str "Seattle, WA") = .ok w1 ∧
      w0.temperature ≠ w1.temperature := by
  refine ⟨rfl, by decide, _, _, rfl, rfl, by decide⟩

/-- C10: outside winter and summer months, the first forecast day is
generated from the same seed and draw order as the current weather, so they
agree on condition, humidity and wind speed, and the current temperature
lies between the forecast low and high. -/
theorem c10_current_vs_first_forecast (env : Env) (s : String) (d : Int)
    (h : env.today.month ∉ ([12, 1, 2, 6, 7, 8] : List Nat)) :
    ∃ w f, get_current_weather env (.str s) = .ok w ∧
      get_weather_forecast env (.str s) (.num d) = .ok f ∧
      ∃ fd, f.forecast.head? = some fd ∧
        fd.condition = w.condition ∧ fd.humidity = w.humidity ∧
        fd.wind_speed = w.wind_speed ∧
        fd.temperature_low ≤ w.temperature ∧ w.temperature ≤ fd.temperature_high := by
  simp only [List.mem_cons, List.not_mem_nil, or_false] at h
  push_neg at h
  obtain ⟨e12, e1, e2, e6, e7, e8⟩ := h
  have h1 : env.today.month ∉ ([12, 1, 2] : List Nat) := by
    simp only [List.mem_cons, List.not_mem_nil, or_false]
    push_neg
    exact ⟨e12, e1, e2⟩
  have h2 : env.today.month ∉ ([6, 7, 8] : List Nat) := by
    simp only [List.mem_cons, List.not_mem_nil, or_false]
    push_neg
    exact ⟨e6, e7, e8⟩
  rcases hw : weatherDraws ((pyHash env.hashKey s : Int) + (dayOfYear env.today : Int))
    with ⟨c, t, hu, wd, r⟩
  have hcw : get_current_weather env (.str s) = .ok ⟨.str s, t, c, hu, wd⟩ := by
    simp [get_current_weather, pyHashJson, hw]
  have hcore := genDayCore_other
    ((pyHash env.hashKey s : Int) + (dayOfYear env.today : Int)) env.today h1 h2
  have hv := randint_mem r 5 15 (by norm_num)
  have hfd : genDay ((pyHash env.hashKey s : Int) + (dayOfYear env.today : Int)) env.today =
      ⟨formatDate env.today, t + (randint r 5 15).1 / 2, t - (randint r 5 15).1 / 2,
       c, hu, wd⟩ := by
    simp [genDay, hcore, hw]
  refine ⟨⟨.str s, t, c, hu, wd⟩, _, hcw, rfl, ?_⟩
  have hk : (max 1 (min 7 d)).toNat = ((max 1 (min 7 d)).toNat - 1) + 1 := by omega
  refine ⟨genDay ((pyHash env.hashKey s : Int) + (dayOfYear env.today : Int)) env.today, ?_,
    by rw [hfd], by rw [hfd], by rw [hfd], ?_, ?_⟩
  · show (forecastDays (pyHash env.hashKey s : Int) env.today (max 1 (min 7 d)).toNat).head? = _
    rw [forecastDays, hk, List.range_succ_eq_map]
    simp [addDays]
  · rw [hfd]
    simp only
    omega
  · rw [hfd]
    simp only
    omega

theorem dispatch_notif (env : Env) (p rid : Json) :
    dispatch env (.str "notifications/initialized") p rid = .ok none := rfl

theorem handle_request_obj (env : Env) (fields : List (String × Json)) :
    handle_request env (.obj fields) = .ok (
      match dispatch env ((lookupField fields "method").getD .null)
          ((lookupField fields "params").getD (.obj []))
          ((lookupField fields "id").getD .null) with
      | .ok r => r
      | .error e => some (errResponse ((lookupField fields "id").getD .null) (-1) e)) := rfl

theorem dispatch_ok_shape (env : Env) (m p rid : Json) (r : Option Json)
    (hd : dispatch env m p rid = .ok r) :
    (m = .str "notifications/initialized" ∧ r = none) ∨
    (∃ res, r = some (mkResult rid res)) := by
  unfold dispatch at hd
  split at hd
  all_goals repeat' split at hd
  all_goals first
    | (injection hd with h; exact Or.inr ⟨_, h.symm⟩)
    | (injection hd with h; exact Or.inl ⟨rfl, h.symm⟩)
    | (exact absurd hd (by simp))

/-- Request used to refute C2: a request with no `id` whose method is not
`notifications/initialized`. -/
def c2req : List (String × Json) := [("jsonrpc", .str "2.0"), ("method", .str "ping")]

/-- C2 counterexample: a request with no `id` field still produces a reply
(and an output line) whenever its method is not `notifications/initialized`;
the dispatcher keys on the method, not on the absence of `id`. -/
theorem c2_claim_false :
    lookupField c2req "id" = none ∧
    handle_request defaultEnv (.obj c2req) =
      .ok (some (errResponse .null (-1) "Unknown method: ping")) ∧
    processLine defaultEnv (.ok (.obj c2req)) =
      some (dumps (errResponse .null (-1) "Unknown method: ping")) :=
  ⟨rfl, rfl, rfl⟩

/-- C2 (amended): the transport loop writes no output line exactly when the
request's method is `notifications/initialized`; any other object request,
with or without an `id`, produces exactly one reply line. -/
theorem c2_amended (env : Env) (fields : List (String × Json)) :
    processLine env (.ok (.obj fields)) = none ↔
      (lookupField fields "method").getD .null = .str "notifications/initialized" := by
  constructor
  · intro hnone
    by_contra hm
    cases hd : dispatch env ((lookupField fields "method").getD .null)
        ((lookupField fields "params").getD (.obj []))
        ((lookupField fields "id").getD .null) with
    | ok r =>
      rcases dispatch_ok_shape env _ _ _ r hd with ⟨hm', _⟩ | ⟨res, hr⟩
      · exact hm hm'
      · rw [hr] at hd
        simp [processLine, handle_request_obj, hd] at hnone
    | error e =>
      simp [processLine, handle_request_obj, hd] at hnone
  · intro hm
    have hd := dispatch_notif env ((lookupField fields "params").getD (.obj []))
      ((lookupField fields "id").getD .null)
    rw [← hm] at hd
    simp [processLine, handle_request_obj, hd]

/-- C5 counterexample: an unexpected internal failure during dispatch of a
well-formed request (here `params` is not a dict, so `params.get` raises
`AttributeError` inside the `try`) is surfaced with code `-1`, not
`-32603`. -/
theorem c5_claim_false :
    handle_request defaultEnv
        (.obj [("id", .num 5), ("method", .str "tools/call"), ("params", .num 7)]) =
      .ok (some (errResponse (.num 5) (-1) "AttributeError: object has no attribute get")) ∧
    errorCodeOf (errResponse (.num 5) (-1) "AttributeError: object has no attribute get") =
      some (-1) ∧
    ((-1 : Int) = -32603 → False) :=
  ⟨rfl, rfl, by decide⟩

/-- C5 (amended): every error response the dispatcher produces for an object
request - internal failures as well as unknown method/tool/prompt - carries
code `-1`; no reply built by `handle_request` carries `-32603`. -/
theorem c5_amended (env : Env) (fields : List (String × Json)) (j : Json) (c : Int)
    (hh : handle_request env (.obj fields) = .ok (some j))
    (hc : errorCodeOf j = some c) : c = -1 := by
  rw [handle_request_obj] at hh
  injection hh with hh
  cases hd : dispatch env ((lookupField fields "method").getD .null)
      ((lookupField fields "params").getD (.obj []))
      ((lookupField fields "id").getD .null) with
  | ok r =>
    rw [hd] at hh
    rcases dispatch_ok_shape env _ _ _ r hd with ⟨_, hr⟩ | ⟨res, hr⟩
    · rw [hr] at hh
      exact absurd hh (by simp)
    · rw [hr] at hh
      injection hh with hh
      rw [← hh] at hc
      rw [show errorCodeOf (mkResult ((lookupField fields "id").getD .null) res) = none
        from rfl] at hc
      exact absurd hc (by simp)
  | error e =>
    rw [hd] at hh
    injection hh with hh
    rw [← hh] at hc
    rw [show errorCodeOf (errResponse ((lookupField fields "id").getD .null) (-1) e) =
      some (-1) from rfl] at hc
    injection hc with hc
    omega

/-- Witness for C5 (amended) at a concrete unknown-method request. -/
theorem c5_amended_witness :
    handle_request defaultEnv (.obj [("id", .num 5), ("method", .str "nope")]) =
      .ok (some (errResponse (.num 5) (-1) "Unknown method: nope")) ∧
    (-1 : Int) = -1 :=
  ⟨rfl, c5_amended defaultEnv [("id", .num 5), ("method", .str "nope")]
    (errResponse (.num 5) (-1) "Unknown method: nope") (-1) rfl rfl⟩

/-- C4: a `tools/call` request whose `params.name` is none of the three
catalog tools is answered (not raised past the dispatcher) with an error
response of code `-1` that echoes the request's `id` unchanged. -/
theorem c4_unknown_tool (env : Env) (fields ps : List (String × Json)) (rid : Json) (n : String)
    (hm : (lookupField fields "method").getD .null = .str "tools/call")
    (hp : (lookupField fields "params").getD (.obj []) = .obj ps)
    (hname : (lookupField ps "name").getD .null = .str n)
    (hid : (lookupField fields "id").getD .null = rid)
    (hn : n ∉ (["get_current_weather", "get_weather_forecast",
                "get_current_datetime"] : List String)) :
    handle_request env (.obj fields) =
      .ok (some (errResponse rid (-1) ("Unknown tool: " ++ n))) := by
  simp only [List.mem_cons, List.not_mem_nil, or_false] at hn
  push_neg at hn
  obtain ⟨hn1, hn2, hn3⟩ := hn
  rw [handle_request_obj, hm, hp, hid]
  have h1 : dispatch env (.str "tools/call") (.obj ps) rid =
      match callTool env ((lookupField ps "name").getD .null)
          ((lookupField ps "arguments").getD (.obj [])) with
      | .error e => .error e
      | .ok content => .ok (some (mkResult rid content)) := rfl
  rw [h1, hname]
  have h2 : callTool env (.str n) ((lookupField ps "arguments").getD (.obj [])) =
      .error ("Unknown tool: " ++ n) := by
    unfold callTool
    split <;> simp_all [pyStr]
  rw [h2]

/-- Witness for C4 at the spec's end-to-end scenario 3 request. -/
theorem c4_unknown_tool_witness :
    (("bogus" : String) ∉ (["get_current_weather", "get_weather_forecast",
       "get_current_datetime"] : List String)) ∧
    handle_request defaultEnv
        (.obj [("jsonrpc", .str "2.0"), ("id", .num 3), ("method", .str "tools/call"),
               ("params", .obj [("name", .str "bogus")])]) =
      .ok (some (errResponse (.num 3) (-1) ("Unknown tool: " ++ "bogus"))) :=
  ⟨by decide,
   c4_unknown_tool defaultEnv
     [("jsonrpc", .str "2.0"), ("id", .num 3), ("method", .str "tools/call"),
      ("params", .obj [("name", .str "bogus")])]
     [("name", .str "bogus")] (.num 3) "bogus" rfl rfl rfl rfl (by decide)⟩

/-- C8: rendering any catalog prompt succeeds for every argument mapping
(including the empty one), and each missing argument is substituted by its
documented placeholder string. -/
theorem c8_prompt_render_total :
    promptNames = ["time_in_location", "daily_briefing", "weather_comparison"] ∧
    (∀ fs, (getPromptMessages "time_in_location" (.obj fs)).isOk = true) ∧
    (∀ fs, (getPromptMessages "daily_briefing" (.obj fs)).isOk = true) ∧
    (∀ fs, (getPromptMessages "weather_comparison" (.obj fs)).isOk = true) ∧
    getPromptMessages "time_in_location" (.obj []) =
      .ok [userMsg (timeInLocationText "the requested location")] ∧
    getPromptMessages "daily_briefing" (.obj []) =
      .ok [userMsg (dailyBriefingText "the requested location")] ∧
    getPromptMessages "weather_comparison" (.obj []) =
      .ok [userMsg (weatherComparisonText "city 1" "city 2")] := by
  refine ⟨rfl, ?_, ?_, ?_, rfl, rfl, rfl⟩ <;>
    intro fs <;> simp [getPromptMessages, pyDictGet, Except.isOk, Except.toBool]

/-- C9: a `tools/call` of `get_current_weather` or of `get_weather_forecast`
whose arguments omit `location` (or omit the arguments mapping entirely) is
not rejected even though each tool's input schema declares `location`
required: the named tool runs with the empty-string default and succeeds,
its result's location being `""` (for the forecast tool, `days` is either
absent, defaulting to 3, or the integer the arguments carry). -/
theorem c9_missing_location :
    schemaRequires "get_current_weather" "location" = true ∧
    schemaRequires "get_weather_forecast" "location" = true ∧
    (∀ (env : Env) (fields ps as : List (String × Json)) (rid : Json),
      (lookupField fields "method").getD .null = .str "tools/call" →
      (lookupField fields "params").getD (.obj []) = .obj ps →
      (lookupField ps "name").getD .null = .str "get_current_weather" →
      (lookupField ps "arguments").getD (.obj []) = .obj as →
      lookupField as "location" = none →
      (lookupField fields "id").getD .null = rid →
      ∃ w, get_current_weather env (.str "") = .ok w ∧ w.location = .str "" ∧
        handle_request env (.obj fields) =
          .ok (some (mkResult rid (toolContent (dumpsIndent 0 w.toJson))))) ∧
    (∀ (env : Env) (fields ps as : List (String × Json)) (rid : Json) (dv : Int),
      (lookupField fields "method").getD .null = .str "tools/call" →
      (lookupField fields "params").getD (.obj []) = .obj ps →
      (lookupField ps "name").getD .null = .str "get_weather_forecast" →
      (lookupField ps "arguments").getD (.obj []) = .obj as →
      lookupField as "location" = none →
      (lookupField as "days").getD (.num 3) = .num dv →
      (lookupField fields "id").getD .null = rid →
      ∃ f, get_weather_forecast env (.str "") (.num dv) = .ok f ∧ f.location = .str "" ∧
        handle_request env (.obj fields) =
          .ok (some (mkResult rid (toolContent (dumpsIndent 0 f.toJson))))) := by
  refine ⟨rfl, rfl, ?_, ?_⟩
  · intro env fields ps as rid hm hp hname hargs hloc hid
    rcases hw : weatherDraws ((pyHash env.hashKey "" : Int) + (dayOfYear env.today : Int))
      with ⟨c, t, hu, wd, r⟩
    have hcw : get_current_weather env (.str "") = .ok ⟨.str "", t, c, hu, wd⟩ := by
      simp [get_current_weather, pyHashJson, hw]
    refine ⟨⟨.str "", t, c, hu, wd⟩, hcw, rfl, ?_⟩
    rw [handle_request_obj, hm, hp, hid]
    have h1 : dispatch env (.str "tools/call") (.obj ps) rid =
        match callTool env ((lookupField ps "name").getD .null)
            ((lookupField ps "arguments").getD (.obj [])) with
        | .error e => .error e
        | .ok content => .ok (some (mkResult rid content)) := rfl
    rw [h1, hname, hargs]
    have h2 : callTool env (.str "get_current_weather") (.obj as) =
        match get_current_weather env ((lookupField as "location").getD (.str "")) with
        | .error e => .error e
        | .ok w => .ok (toolContent (dumpsIndent 0 w.toJson)) := rfl
    rw [h2, hloc]
    rw [show (Option.getD (none : Option Json) (.str "")) = .str "" from rfl, hcw]
  · intro env fields ps as rid dv hm hp hname hargs hloc hdays hid
    refine ⟨⟨.str "", forecastDays (pyHash env.hashKey "" : Int) env.today
      (max 1 (min 7 dv)).toNat⟩, rfl, rfl, ?_⟩
    rw [handle_request_obj, hm, hp, hid]
    have h1 : dispatch env (.str "tools/call") (.obj ps) rid =
        match callTool env ((lookupField ps "name").getD .null)
            ((lookupField ps "arguments").getD (.obj [])) with
        | .error e => .error e
        | .ok content => .ok (some (mkResult rid content)) := rfl
    rw [h1, hname, hargs]
    have h2 : callTool env (.str "get_weather_forecast") (.obj as) =
        match get_weather_forecast env ((lookupField as "location").getD (.str ""))
            ((lookupField as "days").getD (.num 3)) with
        | .error e => .error e
        | .ok f => .ok (toolContent (dumpsIndent 0 f.toJson)) := rfl
    rw [h2, hloc, hdays]
    rw [show (Option.getD (none : Option Json) (.str "")) = .str "" from rfl]
    rfl

/-- Witness for C9: both tools invoked with the arguments mapping absent
entirely (so `location` is missing and `days` defaults to 3), ids 9 and 10. -/
theorem c9_missing_location_witness :
    lookupField [] "location" = none ∧
    (∃ w, get_current_weather defaultEnv (.str "") = .ok w ∧ w.location = .str "" ∧
       handle_request defaultEnv
           (.obj [("id", .num 9), ("method", .str "tools/call"),
                  ("params", .obj [("name", .str "get_current_weather")])]) =
         .ok (some (mkResult (.num 9) (toolContent (dumpsIndent 0 w.toJson))))) ∧
    (∃ f, get_weather_forecast defaultEnv (.str "") (.num 3) = .ok f ∧ f.location = .str "" ∧
       handle_request defaultEnv
           (.obj [("id", .num 10), ("method", .str "tools/call"),
                  ("params", .obj [("name", .str "get_weather_forecast")])]) =
         .ok (some (mkResult (.num 10) (toolContent (dumpsIndent 0 f.toJson))))) :=
  ⟨rfl,
   c9_missing_location.2.2.1 defaultEnv
     [("id", .num 9), ("method", .str "tools/call"),
      ("params", .obj [("name", .str "get_current_weather")])]
     [("name", .str "get_current_weather")] [] (.num 9) rfl rfl rfl rfl rfl rfl,
   c9_missing_location.2.2.2 defaultEnv
     [("id", .num 10), ("method", .str "tools/call"),
      ("params", .obj [("name", .str "get_weather_forecast")])]
     [("name", .str "get_weather_forecast")] [] (.num 10) 3 rfl rfl rfl rfl rfl rfl rfl⟩

/-- Witness for C10 at a concrete October date. -/
theorem c10_witness :
    defaultEnv.today.month ∉ ([12, 1, 2, 6, 7, 8] : List Nat) ∧
    (∃ w f, get_current_weather defaultEnv (.str "Seattle, WA") = .ok w ∧
      get_weather_forecast defaultEnv (.str "Seattle, WA") (.num 3) = .ok f ∧
      ∃ fd, f.forecast.head? = some fd ∧
        fd.condition = w.condition ∧ fd.humidity = w.humidity ∧
        fd.wind_speed = w.wind_speed ∧
        fd.temperature_low ≤ w.temperature ∧ w.temperature ≤ fd.temperature_high) :=
  ⟨by decide, c10_current_vs_first_forecast defaultEnv "Seattle, WA" 3 (by decide)⟩
